import Mathlib

/-!
# PaaS_Netflix_DB: the catalog repository, the persistence gateway and the update handler

A shallow embedding of `src/Model/connection.js`, `src/Model/AnimeForm.js` and the
`PUT /animeForm/:id` handler of `src/app.js`, followed by theorems about the statements
and bound-parameter lists these functions hand to the database driver.

JavaScript values are modelled by `JSVal`: undefined, null, booleans, numbers and strings
(objects and arrays are not modelled).  Numbers are NaN, the two infinities and the integral
finite values; an integral Number is identified with the mathematical integer it denotes
(double rounding above 2^53 and the exponent form that `Number::toString` uses from 10^21 on
are not modelled).  Strings are Lean strings, so a string is a sequence of code points.
An `async` function is modelled by its outcome (`Except`: resolved or rejected) together
with the state it leaves; calls run one after the other.  `console.log` calls are
diagnostic only and are left out.
-/

namespace AnimeDB

/-! ## JavaScript values and the built-ins the sources use -/

/-- Number values: NaN, plus or minus Infinity, and the integral finite values. -/
inductive JSNum where
  | nan
  | inf (negative : Bool)
  | int (i : Int)
  deriving DecidableEq, Repr

/-- Primitive JavaScript values. -/
inductive JSVal where
  | undefined
  | null
  | bool (b : Bool)
  | num (n : JSNum)
  | str (s : String)
  deriving DecidableEq, Repr

/-- Exceptions raised by the modelled code or by the database driver. -/
inductive JSError where
  | typeError (msg : String)
  | error (msg : String)
  | driver (msg : String)
  deriving DecidableEq, Repr

/-- ECMAScript `ToBoolean`. -/
def toBoolean : JSVal → Bool
  | .undefined => false
  | .null => false
  | .bool b => b
  | .num .nan => false
  | .num (.inf _) => true
  | .num (.int i) => i != 0
  | .str s => s != ""

/-- ECMAScript `Number::toString` on the modelled numbers.  For an integer it gives all the
decimal digits, which is what JavaScript prints for magnitudes below 2^53; above that
JavaScript prints the shortest digits that round-trip, and from 10^21 on the exponent form
(`1e+21`), which this function does not reproduce. -/
def numToString : JSNum → String
  | .nan => "NaN"
  | .inf false => "Infinity"
  | .inf true => "-Infinity"
  | .int i => toString i

/-- ECMAScript `ToString` (what a template literal and `parseInt` apply to a value). -/
def jsToString : JSVal → String
  | .undefined => "undefined"
  | .null => "null"
  | .bool true => "true"
  | .bool false => "false"
  | .num n => numToString n
  | .str s => s

/-- The `WhiteSpace` and `LineTerminator` code points: what `trim`, `parseInt` and
`StringToNumber` skip. -/
def isStrWhiteSpaceChar (c : Char) : Bool :=
  let n := c.toNat
  n == 0x09 || n == 0x0A || n == 0x0B || n == 0x0C || n == 0x0D || n == 0x20 ||
  n == 0xA0 || n == 0x1680 || (0x2000 ≤ n && n ≤ 0x200A) || n == 0x2028 ||
  n == 0x2029 || n == 0x202F || n == 0x205F || n == 0x3000 || n == 0xFEFF

/-- Drop the white space at the end of a character list. -/
def trimEndChars (cs : List Char) : List Char :=
  ((cs.reverse).dropWhile isStrWhiteSpaceChar).reverse

/-- The method `String.prototype.trim`. -/
def jsTrim (s : String) : String :=
  String.mk (trimEndChars (s.toList.dropWhile isStrWhiteSpaceChar))

/-- The value of a character as a digit: `0-9`, then `a-z` or `A-Z` for 10 to 35. -/
def digitValue (c : Char) : Option Nat :=
  if '0' ≤ c ∧ c ≤ '9' then some (c.toNat - '0'.toNat)
  else if 'a' ≤ c ∧ c ≤ 'z' then some (c.toNat - 'a'.toNat + 10)
  else if 'A' ≤ c ∧ c ≤ 'Z' then some (c.toNat - 'A'.toNat + 10)
  else none

/-- Whether a character is a digit of the given radix. -/
def isRadixDigit (radix : Nat) (c : Char) : Bool :=
  match digitValue c with
  | some d => decide (d < radix)
  | none => false

/-- The number a list of radix digits denotes. -/
def digitsValue (radix : Nat) (cs : List Char) : Nat :=
  cs.foldl (fun acc c => acc * radix + (digitValue c).getD 0) 0

/-- The global `parseInt(input, radix)`; radix `0` stands for an omitted radix.  The result
is the exact integer the digits denote, which is what JavaScript returns for magnitudes
below 2^53; above that JavaScript rounds to the nearest double, and to Infinity past the
double range, which this function does not reproduce. -/
def parseInt (input : JSVal) (radix : Nat) : JSNum :=
  let s := (jsToString input).toList.dropWhile isStrWhiteSpaceChar
  let negative := s.head? == some '-'
  let s := if s.head? == some '-' || s.head? == some '+' then s.tail else s
  if radix != 0 && (radix < 2 || radix > 36) then .nan
  else
    let hex := (radix == 0 || radix == 16) &&
      (s.take 2 == ['0', 'x'] || s.take 2 == ['0', 'X'])
    let s := if hex then s.drop 2 else s
    let r := if hex then 16 else if radix == 0 then 10 else radix
    let z := s.takeWhile (isRadixDigit r)
    if z.isEmpty then .nan
    else if negative then .int (-(digitsValue r z : Int))
    else .int (digitsValue r z)

/-- Whether a Number is NaN. -/
def JSNum.isNaN : JSNum → Bool
  | .nan => true
  | _ => false

/-- An optional exponent part `e`/`E`, optional sign, one or more decimal digits. -/
def isExponentOpt : List Char → Bool
  | [] => true
  | c :: rest =>
    if c == 'e' || c == 'E' then
      let ds := match rest with
        | '+' :: r => r
        | '-' :: r => r
        | r => r
      !ds.isEmpty && ds.all (isRadixDigit 10)
    else false

/-- The grammar `StrUnsignedDecimalLiteral`: `Infinity`, or digits with an optional
fraction and exponent. -/
def isStrUnsignedDecimalLiteral (cs : List Char) : Bool :=
  if cs == "Infinity".toList then true
  else
    let intPart := cs.takeWhile (isRadixDigit 10)
    let rest := cs.dropWhile (isRadixDigit 10)
    match rest with
    | '.' :: r =>
      let frac := r.takeWhile (isRadixDigit 10)
      (!intPart.isEmpty || !frac.isEmpty) && isExponentOpt (r.dropWhile (isRadixDigit 10))
    | _ => !intPart.isEmpty && isExponentOpt rest

/-- The grammar `StrNumericLiteral`: a signed decimal literal, or an unsigned binary, octal
or hexadecimal integer literal. -/
def isStrNumericLiteral (cs : List Char) : Bool :=
  match cs with
  | '+' :: r => isStrUnsignedDecimalLiteral r
  | '-' :: r => isStrUnsignedDecimalLiteral r
  | '0' :: 'x' :: r => !r.isEmpty && r.all (isRadixDigit 16)
  | '0' :: 'X' :: r => !r.isEmpty && r.all (isRadixDigit 16)
  | '0' :: 'o' :: r => !r.isEmpty && r.all (isRadixDigit 8)
  | '0' :: 'O' :: r => !r.isEmpty && r.all (isRadixDigit 8)
  | '0' :: 'b' :: r => !r.isEmpty && r.all (isRadixDigit 2)
  | '0' :: 'B' :: r => !r.isEmpty && r.all (isRadixDigit 2)
  | _ => isStrUnsignedDecimalLiteral cs

/-- Whether `StringToNumber` yields a number other than NaN: the trimmed string is empty
(the number 0) or matches `StrNumericLiteral`. -/
def stringIsNumeric (s : String) : Bool :=
  let t := (jsTrim s).toList
  t.isEmpty || isStrNumericLiteral t

/-- The global `isNaN(v)`: whether `ToNumber(v)` is NaN. -/
def isNaN : JSVal → Bool
  | .undefined => true
  | .null => false
  | .bool _ => false
  | .num n => n.isNaN
  | .str s => !stringIsNumeric s

/-- The operator `a ?? b`. -/
def nullish (a b : JSVal) : JSVal :=
  match a with
  | .undefined => b
  | .null => b
  | v => v

/-! ## The persistence gateway: `src/Model/connection.js` -/

/-- What `connection.execute` resolves to (the first component of its result pair): a row
set for a read, a write acknowledgement for a write. -/
inductive DbResult where
  | rows (rs : List (List (String × JSVal)))
  | ack (affectedRows : Nat) (insertId : Nat)
  deriving DecidableEq, Repr

/-- One call of `connection.execute`: the connection it ran on, the statement text and the
bound parameters. -/
structure ExecCall where
  conn : Nat
  sql : String
  params : List JSVal
  deriving DecidableEq, Repr

/-- The driver `mysql2/promise` with the database behind it.  `createConnection k` is the
outcome of the `k`-th call of `mysql.createConnection` (`none`: it resolves, and the new
connection object is identified by `k`; `some e`: it rejects with `e`).  `execute` gives the
outcome of a call of `connection.execute` after the calls made before it. -/
structure Driver where
  createConnection : Nat → Option JSError
  execute : List ExecCall → ExecCall → Except JSError DbResult

/-- The module state of `connection.js` together with the history of the driver: the
variable `connection` (`none` is `null`), the number of `mysql.createConnection` calls made
and the `connection.execute` calls made, oldest first. -/
structure Gateway where
  connection : Option Nat
  created : Nat
  executed : List ExecCall
  deriving DecidableEq, Repr

/-- The state at module load: `let connection = null`, nothing called yet. -/
def Gateway.init : Gateway :=
  { connection := none, created := 0, executed := [] }

/-- The lines `const [results] = await connection.execute(sql, params); return results;`
of `query`, on connection `c`. -/
def executeOn (mysql : Driver) (c : Nat) (sql : String) (params : List JSVal)
    (g : Gateway) : Except JSError DbResult × Gateway :=
  (mysql.execute g.executed { conn := c, sql := sql, params := params },
   { g with executed := g.executed ++ [{ conn := c, sql := sql, params := params }] })

/-- The function `query(sql, params)` of `connection.js`: create the connection when the
stored one is `null`, then execute on the stored connection. -/
def query (mysql : Driver) (sql : String) (params : List JSVal)
    (g : Gateway) : Except JSError DbResult × Gateway :=
  match g.connection with
  | none =>
    match mysql.createConnection g.created with
    | some e => (.error e, { g with created := g.created + 1 })
    | none =>
      executeOn mysql g.created sql params
        { g with connection := some g.created, created := g.created + 1 }
  | some c => executeOn mysql c sql params g

/-- A sequence of `query` calls executed one after the other; the outcomes are dropped. -/
def runQueries (mysql : Driver) : List (String × List JSVal) → Gateway → Gateway
  | [], g => g
  | (sql, params) :: rest, g => runQueries mysql rest (query mysql sql params g).2

/-! ## The catalog repository: `src/Model/AnimeForm.js` -/

/-- The filter object passed to `getAll`; a key that is absent reads as `undefined`. -/
structure Filter where
  title : JSVal := .undefined
  date : JSVal := .undefined
  publisher_name : JSVal := .undefined
  rating : JSVal := .undefined
  style : JSVal := .undefined
  stars : JSVal := .undefined
  sortBy : JSVal := .undefined
  limit : JSVal := .undefined
  deriving DecidableEq, Repr

/-- The template literal that `getAll` starts from (lines 7 to 24). -/
def selectBase : String :=
  "\n    SELECT \n      AnimeForm.id AS anime_id,\n      AnimeForm.anime_title,\n" ++
  "      AnimeForm.date,\n      AnimeForm.rating,\n      AnimeForm.title_image,\n" ++
  "      AnimeForm.style,\n      AnimeForm.show_summary,\n      AnimeForm.num_of_seasons,\n" ++
  "      AnimeForm.stars,\n      publisher.id AS publisher_id,\n" ++
  "      publisher.name AS publisher_name,\n      publisher.country,\n" ++
  "      publisher.city\n    FROM AnimeForm\n" ++
  "    INNER JOIN publisher ON AnimeForm.publisher_id = publisher.id\n    "

/-- The array `allowedSorts` of `getAll`. -/
def allowedSorts : List JSVal :=
  [.str "anime_title", .str "date", .str "rating", .str "style", .str "stars",
   .str "publisher_name", .str "num_of_seasons"]

/-- The test `v && v.trim() !== ""` that guards each text filter.  A falsy `v` makes it
false without calling `trim`; a truthy value that is not a string has no `trim` method, so
the call throws a TypeError. -/
def trimmedNonEmpty (v : JSVal) : Except JSError Bool :=
  if toBoolean v then
    match v with
    | .str s => .ok (jsTrim s != "")
    | _ => .error (.typeError "trim is not a function")
  else .ok false

/-- The mutable locals of `getAll`: `selectSql`, `queryParameters` and `whereAdded`. -/
structure Locals where
  selectSql : String
  queryParameters : List JSVal
  whereAdded : Bool
  deriving DecidableEq, Repr

/-- Lines 31 to 35: the `title` filter; `title` is `parameters.title`, and likewise in
the steps below. -/
def titleStep (title : JSVal) (l : Locals) : Except JSError Locals := do
  if ← trimmedNonEmpty title then
    pure { selectSql := l.selectSql ++ " WHERE anime_title LIKE ?",
           queryParameters :=
             l.queryParameters ++ [.str ("%" ++ jsToString title ++ "%")],
           whereAdded := true }
  else pure l

/-- Lines 36 to 40: the `date` filter. -/
def dateStep (date : JSVal) (l : Locals) : Except JSError Locals := do
  if ← trimmedNonEmpty date then
    pure { selectSql :=
             l.selectSql ++ ((if l.whereAdded then " AND" else " WHERE") ++ " date LIKE ?"),
           queryParameters :=
             l.queryParameters ++ [.str ("%" ++ jsToString date ++ "%")],
           whereAdded := true }
  else pure l

/-- Lines 41 to 45: the `publisher_name` filter. -/
def publisherStep (publisher_name : JSVal) (l : Locals) : Except JSError Locals := do
  if ← trimmedNonEmpty publisher_name then
    pure { selectSql :=
             l.selectSql ++
               ((if l.whereAdded then " AND" else " WHERE") ++ " publisher.name LIKE ?"),
           queryParameters :=
             l.queryParameters ++ [.str ("%" ++ jsToString publisher_name ++ "%")],
           whereAdded := true }
  else pure l

/-- Lines 46 to 50: the `rating` filter. -/
def ratingStep (rating : JSVal) (l : Locals) : Except JSError Locals := do
  if ← trimmedNonEmpty rating then
    pure { selectSql :=
             l.selectSql ++ ((if l.whereAdded then " AND" else " WHERE") ++ " rating = ?"),
           queryParameters := l.queryParameters ++ [rating],
           whereAdded := true }
  else pure l

/-- Lines 51 to 55: the `style` filter. -/
def styleStep (style : JSVal) (l : Locals) : Except JSError Locals := do
  if ← trimmedNonEmpty style then
    pure { selectSql :=
             l.selectSql ++ ((if l.whereAdded then " AND" else " WHERE") ++ " style = ?"),
           queryParameters := l.queryParameters ++ [style],
           whereAdded := true }
  else pure l

/-- Lines 56 to 62: the `stars` filter, applied when `parseInt` gives a number. -/
def starsStep (stars : JSVal) (l : Locals) : Locals :=
  if stars != .undefined && stars != .str "" then
    let parsed := parseInt stars 10
    if !parsed.isNaN then
      { l with
        selectSql :=
          l.selectSql ++ ((if l.whereAdded then " AND" else " WHERE") ++ " stars = ?"),
        queryParameters := l.queryParameters ++ [.num parsed] }
    else l
  else l

/-- Lines 64 to 78: the `ORDER BY` clause. -/
def orderStep (sortBy : JSVal) (l : Locals) : Locals :=
  if toBoolean sortBy && allowedSorts.contains sortBy then
    { l with selectSql := l.selectSql ++ (" ORDER BY " ++ jsToString sortBy) }
  else
    { l with selectSql := l.selectSql ++ " ORDER BY anime_title" }

/-- Lines 81 to 84: the local `limit`, 10 unless `parameters.limit` is truthy and
`isNaN` rejects it, in which case it is what `parseInt` returns. -/
def limitValue (limit : JSVal) : JSNum :=
  if toBoolean limit && !isNaN limit then parseInt limit 10 else .int 10

/-- Line 87: the `LIMIT` clause, with the local `limit` interpolated. -/
def limitStep (limit : JSVal) (l : Locals) : Locals :=
  { l with selectSql := l.selectSql ++ (" LIMIT " ++ numToString (limitValue limit)) }

/-- Lines 7 to 87 of `getAll`: the statement text and the bound-parameter list that are
handed to `connection.query`, built by the steps above in the order of the source. -/
def getAllStatement (parameters : Filter) : Except JSError (String × List JSVal) := do
  let l : Locals := { selectSql := selectBase, queryParameters := [], whereAdded := false }
  let l ← titleStep parameters.title l
  let l ← dateStep parameters.date l
  let l ← publisherStep parameters.publisher_name l
  let l ← ratingStep parameters.rating l
  let l ← styleStep parameters.style l
  let l := starsStep parameters.stars l
  let l := orderStep parameters.sortBy l
  let l := limitStep parameters.limit l
  return (l.selectSql, l.queryParameters)

/-- The function `getAll(parameters)`: build the statement, then
`return await connection.query(selectSql, queryParameters)`. -/
def getAll (mysql : Driver) (parameters : Filter) (g : Gateway) :
    Except JSError DbResult × Gateway :=
  match getAllStatement parameters with
  | .error e => (.error e, g)
  | .ok (selectSql, queryParameters) => query mysql selectSql queryParameters g

/-- The field set passed to `insert` and `edit`; a key that is absent reads as
`undefined`. -/
structure Fields where
  anime_title : JSVal := .undefined
  date : JSVal := .undefined
  rating : JSVal := .undefined
  title_image : JSVal := .undefined
  style : JSVal := .undefined
  show_summary : JSVal := .undefined
  num_of_seasons : JSVal := .undefined
  stars : JSVal := .undefined
  publisher_id : JSVal := .undefined
  deriving DecidableEq, Repr

/-- The statement text of `insert`. -/
def insertSql : String :=
  "INSERT INTO AnimeForm (anime_title, date, rating, title_image, style, show_summary, " ++
  "num_of_seasons, stars, publisher_id) \n                     VALUES (?, ?, ?, ?, ?, ?, ?, ?, ?)"

/-- The array `queryParameters` of `insert`. -/
def insertParameters (parameters : Fields) : List JSVal :=
  [parameters.anime_title, parameters.date, parameters.rating, parameters.title_image,
   parameters.style, parameters.show_summary, parameters.num_of_seasons, parameters.stars,
   parameters.publisher_id]

/-- The function `insert(parameters)`. -/
def insert (mysql : Driver) (parameters : Fields) (g : Gateway) :
    Except JSError DbResult × Gateway :=
  query mysql insertSql (insertParameters parameters) g

/-- The statement text of `edit`. -/
def updateSql : String :=
  "\n        UPDATE AnimeForm \n        SET anime_title = ?, \n            date = ?, \n" ++
  "            rating = ?, \n            title_image = ?, \n            style = ?, \n" ++
  "            show_summary = ?, \n            num_of_seasons = ?, \n" ++
  "            stars = ? \n        WHERE id = ?"

/-- The array `queryParameters` of `edit`: each field through `?? null`, then the id. -/
def editParameters (id : JSVal) (parameters : Fields) : List JSVal :=
  [nullish parameters.anime_title .null, nullish parameters.date .null,
   nullish parameters.rating .null, nullish parameters.title_image .null,
   nullish parameters.style .null, nullish parameters.show_summary .null,
   nullish parameters.num_of_seasons .null, nullish parameters.stars .null, id]

/-- The function `edit(id, parameters)`. -/
def edit (mysql : Driver) (id : JSVal) (parameters : Fields) (g : Gateway) :
    Except JSError DbResult × Gateway :=
  query mysql updateSql (editParameters id parameters) g

/-- The statement text of `deleteById`. -/
def deleteSql : String := "DELETE FROM AnimeForm WHERE id = ?"

/-- The function `deleteById(id)`: throw when `!id || isNaN(id)`, otherwise run the DELETE
with `[id]` bound. -/
def deleteById (mysql : Driver) (id : JSVal) (g : Gateway) :
    Except JSError DbResult × Gateway :=
  if !toBoolean id || isNaN id then (.error (.error "Invalid ID"), g)
  else query mysql deleteSql [id] g

/-! ## The list handler: `GET /animeForm/` in `src/app.js` -/

/-- Line 120 of `app.js`, `queryParams.limit ? parseInt(queryParams.limit) : 10`: the value
the handler passes to `getAll` as `limit`. -/
def listLimit (queryLimit : JSVal) : JSVal :=
  if toBoolean queryLimit then .num (parseInt queryLimit 0) else .num (.int 10)

/-! ## The update handler: `PUT /animeForm/:id` in `src/app.js` -/

/-- A file as the upload middleware stores it: the generated file name and the MIME type. -/
structure UploadedFile where
  filename : String
  mimetype : String
  deriving DecidableEq, Repr

/-- The fields of `req.body` the handler reads; a field that was not sent reads as
`undefined`. -/
structure PutBody where
  anime_title : JSVal := .undefined
  date : JSVal := .undefined
  rating : JSVal := .undefined
  style : JSVal := .undefined
  show_summary : JSVal := .undefined
  num_of_seasons : JSVal := .undefined
  stars : JSVal := .undefined
  old_image : JSVal := .undefined
  deriving DecidableEq, Repr

/-- The request as the handler receives it from the upload and validation middleware:
`req.params.id`, `req.body`, `req.files['title_image']` (`none` when no file came with the
request) and the list of errors that `validationResult(req)` holds. -/
structure PutRequest where
  id : JSVal
  body : PutBody
  title_image : Option (List UploadedFile)
  errors : List String
  deriving DecidableEq, Repr

/-- The HTTP status and the message of the JSON body the handler answers with. -/
structure Response where
  status : Nat
  message : String
  deriving DecidableEq, Repr

/-- The expression `req.files['title_image']?.[0]?.filename`. -/
def uploadedFilename (req : PutRequest) : JSVal :=
  match req.title_image with
  | some (file :: _) => .str file.filename
  | _ => .undefined

/-- The expression `isNaN(parseInt(v)) ? null : parseInt(v)` of lines 182 and 183. -/
def parsedOrNull (v : JSVal) : JSVal :=
  if (parseInt v 0).isNaN then .null else .num (parseInt v 0)

/-- The object `updatedData` of lines 176 to 185. -/
def updatedData (req : PutRequest) : Fields :=
  { anime_title := req.body.anime_title,
    date := req.body.date,
    rating := req.body.rating,
    style := req.body.style,
    show_summary := req.body.show_summary,
    num_of_seasons := parsedOrNull req.body.num_of_seasons,
    stars := parsedOrNull req.body.stars,
    title_image := nullish (uploadedFilename req) req.body.old_image }

/-- The handler of `PUT /animeForm/:id` (lines 170 to 194): answer 400 when validation left
errors, otherwise pass `updatedData` to `edit` and answer 200, or 500 when `edit` throws. -/
def putHandler (mysql : Driver) (req : PutRequest) (g : Gateway) : Response × Gateway :=
  if !req.errors.isEmpty then
    ({ status := 400, message := "Request fields or files are invalid." }, g)
  else
    match edit mysql req.id (updatedData req) g with
    | (.ok _, g1) => ({ status := 200, message := "Anime entry updated successfully." }, g1)
    | (.error _, g1) => ({ status := 500, message := "Failed to update entry." }, g1)

/-! ## Reading `getAll` clause by clause -/

/-- A value the text-filter guard accepts without throwing: a string, or a falsy value. -/
def textOk : JSVal → Bool
  | .str _ => true
  | v => !toBoolean v

/-- A text filter is applied: its value is a string that is not blank after trimming. -/
def nonBlank : JSVal → Bool
  | .str s => jsTrim s != ""
  | _ => false

/-- Every text filter of the object is a string or a falsy value.  These are the filter
objects for which `getAll` builds a statement: on any other, the first `trim` call on a
value that is not a string throws. -/
def Filter.textOk (p : Filter) : Bool :=
  AnimeDB.textOk p.title && AnimeDB.textOk p.date && AnimeDB.textOk p.publisher_name &&
  AnimeDB.textOk p.rating && AnimeDB.textOk p.style

/-- The column name that lines 74 to 78 of `getAll` put after `ORDER BY`. -/
def sortColumn (sortBy : JSVal) : String :=
  if toBoolean sortBy && allowedSorts.contains sortBy then jsToString sortBy
  else "anime_title"

/-- The predicates of a filter object as C4, C7 and C10 word them, in the order title, date,
publisher_name, rating, style, stars, each with the value it binds: `LIKE` with the value
between two `%` for a title, date or publisher_name that is not blank, equality with the
value as given for a rating or style that is not blank, and equality with the parsed number
for a stars value that `parseInt` reads. -/
def predicates (p : Filter) : List (String × JSVal) :=
  (if nonBlank p.title then
    [(" anime_title LIKE ?", JSVal.str ("%" ++ jsToString p.title ++ "%"))] else []) ++
  (if nonBlank p.date then
    [(" date LIKE ?", JSVal.str ("%" ++ jsToString p.date ++ "%"))] else []) ++
  (if nonBlank p.publisher_name then
    [(" publisher.name LIKE ?", JSVal.str ("%" ++ jsToString p.publisher_name ++ "%"))]
   else []) ++
  (if nonBlank p.rating then [(" rating = ?", p.rating)] else []) ++
  (if nonBlank p.style then [(" style = ?", p.style)] else []) ++
  (if (parseInt p.stars 10).isNaN then [] else [(" stars = ?", JSVal.num (parseInt p.stars 10))])

/-- The later clauses, each after ` AND`. -/
def andClauses : List String → String
  | [] => ""
  | d :: ds => " AND" ++ d ++ andClauses ds

/-- The clauses joined the way `getAll` joins them: nothing when there is none, otherwise
` WHERE` before the first and ` AND` before each later one. -/
def whereClause : List String → String
  | [] => ""
  | c :: cs => " WHERE" ++ c ++ andClauses cs

/-- The locals after the predicates `pr` have been added. -/
def localsOf (pr : List (String × JSVal)) : Locals :=
  { selectSql := selectBase ++ whereClause (pr.map Prod.fst),
    queryParameters := pr.map Prod.snd,
    whereAdded := !pr.isEmpty }

/-- Which of the six predicates a filter object applies, in the order of the source. -/
def appliedFilters (p : Filter) : List Bool :=
  [nonBlank p.title, nonBlank p.date, nonBlank p.publisher_name, nonBlank p.rating,
   nonBlank p.style, !(parseInt p.stars 10).isNaN]

/-- The number of `?` placeholders in a statement text. -/
def placeholders (sql : String) : Nat :=
  sql.toList.count '?'

/-- The value bound for a field of the field set, as C5 words it: the field as given
when the key is present, null when it is absent. -/
def givenOrNull (v : JSVal) : JSVal :=
  if v = .undefined then .null else v

/-- Whether a character is one of the ten decimal digits. -/
def isDecimalChar (c : Char) : Bool :=
  ['0', '1', '2', '3', '4', '5', '6', '7', '8', '9'].contains c

/-! ## Sample inputs -/

/-- A driver whose connection attempts all succeed and whose statements all affect one
row. -/
def sampleDriver : Driver :=
  { createConnection := fun _ => none,
    execute := fun _ _ => .ok (.ack 1 0) }

/-- An update request without an uploaded file and without the field `old_image`. -/
def sampleRequest : PutRequest :=
  { id := .str "7",
    body := { anime_title := .str "Frieren", date := .str "2023-09-29",
              rating := .str "TV-14", style := .str "Fantasy",
              show_summary := .str "An elf mage outlives her party.",
              num_of_seasons := .str "1", stars := .str "5" },
    title_image := none,
    errors := [] }

/-- An update request that carries a new upload. -/
def sampleUpload : PutRequest :=
  { sampleRequest with
    title_image := some [{ filename := "cover-1700000000000.png", mimetype := "image/png" }] }

/-! ## The built-ins on sample values -/

theorem parseInt_samples :
    parseInt (.str "  42px") 10 = .int 42 ∧ parseInt (.str "-7") 10 = .int (-7) ∧
      parseInt (.str "3.7") 10 = .int 3 ∧ parseInt (.str "1e3") 10 = .int 1 ∧
      parseInt (.str "0x1A") 0 = .int 26 ∧ parseInt (.str "0x1A") 10 = .int 0 ∧
      parseInt (.str "abc") 10 = .nan ∧ parseInt (.str " ") 10 = .nan ∧
      parseInt .null 10 = .nan ∧ parseInt (.bool true) 10 = .nan ∧
      parseInt (.num (.inf false)) 10 = .nan ∧ parseInt (.num (.int (-12))) 10 = .int (-12) := by
  decide

theorem isNaN_samples :
    isNaN (.str "abc") = true ∧ isNaN (.str "12px") = true ∧ isNaN (.str ".") = true ∧
      isNaN (.str "0x") = true ∧ isNaN (.str "-0x10") = true ∧ isNaN .undefined = true ∧
      isNaN (.str "") = false ∧ isNaN (.str " ") = false ∧ isNaN (.str " 12 ") = false ∧
      isNaN (.str "1e3") = false ∧ isNaN (.str ".5") = false ∧ isNaN (.str "5.") = false ∧
      isNaN (.str "0x1f") = false ∧ isNaN (.str "-Infinity") = false ∧
      isNaN .null = false ∧ isNaN (.bool true) = false := by
  decide

theorem jsTrim_samples :
    jsTrim "  a b \n" = "a b" ∧ jsTrim " \t\r\n" = "" ∧ jsTrim "" = "" ∧
      toBoolean (.str " ") = true ∧ toBoolean (.str "0") = true ∧
      toBoolean (.num (.int 0)) = false ∧ toBoolean (.str "") = false := by
  decide

/-! ## Lemmas on the steps of `getAll` -/

theorem trimmedNonEmpty_eq (v : JSVal) :
    trimmedNonEmpty v =
      if textOk v then .ok (nonBlank v) else .error (.typeError "trim is not a function") := by
  cases v with
  | str s =>
    by_cases h : s = "" <;> simp [trimmedNonEmpty, textOk, nonBlank, toBoolean, h]
    decide
  | undefined => simp [trimmedNonEmpty, textOk, nonBlank, toBoolean]
  | null => simp [trimmedNonEmpty, textOk, nonBlank, toBoolean]
  | bool b => cases b <;> simp [trimmedNonEmpty, textOk, nonBlank, toBoolean]
  | num n =>
    cases n with
    | nan => simp [trimmedNonEmpty, textOk, nonBlank, toBoolean]
    | inf b => simp [trimmedNonEmpty, textOk, nonBlank, toBoolean]
    | int i => by_cases h : i = 0 <;> simp [trimmedNonEmpty, textOk, nonBlank, toBoolean, h]

theorem trimmedNonEmpty_of_textOk {v : JSVal} (h : textOk v = true) :
    trimmedNonEmpty v = .ok (nonBlank v) := by
  rw [trimmedNonEmpty_eq, if_pos h]

theorem parseInt_undefined : parseInt .undefined 10 = .nan := by decide

theorem parseInt_empty : parseInt (.str "") 10 = .nan := by decide

theorem andClauses_append (cs : List String) (c : String) :
    andClauses (cs ++ [c]) = andClauses cs ++ (" AND" ++ c) := by
  induction cs with
  | nil => simp [andClauses]
  | cons d ds ih => simp [andClauses, ih, String.append_assoc]

theorem whereClause_append (cs : List String) (c : String) :
    whereClause (cs ++ [c]) =
      whereClause cs ++ ((if cs.isEmpty then " WHERE" else " AND") ++ c) := by
  cases cs with
  | nil => simp [whereClause, andClauses]
  | cons d ds => simp [whereClause, andClauses_append, String.append_assoc]

theorem localsOf_snoc (pr : List (String × JSVal)) (c : String) (v : JSVal) :
    localsOf (pr ++ [(c, v)]) =
      { selectSql :=
          (localsOf pr).selectSql ++ ((if (localsOf pr).whereAdded then " AND" else " WHERE") ++ c),
        queryParameters := (localsOf pr).queryParameters ++ [v],
        whereAdded := true } := by
  cases pr with
  | nil => simp [localsOf, whereClause, andClauses]
  | cons d ds =>
    simp [localsOf, whereClause, andClauses_append, String.append_assoc]

theorem parseInt_ne_of_not_nan {v : JSVal} (h : (parseInt v 10).isNaN = false) :
    (v != JSVal.undefined) = true ∧ (v != JSVal.str "") = true := by
  constructor
  · rw [bne_iff_ne]; rintro rfl; rw [parseInt_undefined] at h; exact absurd h (by decide)
  · rw [bne_iff_ne]; rintro rfl; rw [parseInt_empty] at h; exact absurd h (by decide)

theorem except_bind_ok {α β : Type} (a : α) (f : α → Except JSError β) :
    (Except.ok a >>= f) = f a := rfl

theorem titleStep_init (v : JSVal) (h : textOk v = true) :
    titleStep v { selectSql := selectBase, queryParameters := [], whereAdded := false } =
      .ok (localsOf (if nonBlank v then
        [(" anime_title LIKE ?", JSVal.str ("%" ++ jsToString v ++ "%"))] else [])) := by
  unfold titleStep
  rw [trimmedNonEmpty_of_textOk h]
  cases nonBlank v <;>
    simp [except_bind_ok, localsOf, whereClause, andClauses, pure, Except.pure]

theorem dateStep_localsOf (v : JSVal) (pr : List (String × JSVal)) (h : textOk v = true) :
    dateStep v (localsOf pr) =
      .ok (localsOf (pr ++ if nonBlank v then
        [(" date LIKE ?", JSVal.str ("%" ++ jsToString v ++ "%"))] else [])) := by
  unfold dateStep
  rw [trimmedNonEmpty_of_textOk h]
  cases nonBlank v <;> simp [except_bind_ok, localsOf_snoc, pure, Except.pure]

theorem publisherStep_localsOf (v : JSVal) (pr : List (String × JSVal))
    (h : textOk v = true) :
    publisherStep v (localsOf pr) =
      .ok (localsOf (pr ++ if nonBlank v then
        [(" publisher.name LIKE ?", JSVal.str ("%" ++ jsToString v ++ "%"))] else [])) := by
  unfold publisherStep
  rw [trimmedNonEmpty_of_textOk h]
  cases nonBlank v <;> simp [except_bind_ok, localsOf_snoc, pure, Except.pure]

theorem ratingStep_localsOf (v : JSVal) (pr : List (String × JSVal)) (h : textOk v = true) :
    ratingStep v (localsOf pr) =
      .ok (localsOf (pr ++ if nonBlank v then [(" rating = ?", v)] else [])) := by
  unfold ratingStep
  rw [trimmedNonEmpty_of_textOk h]
  cases nonBlank v <;> simp [except_bind_ok, localsOf_snoc, pure, Except.pure]

theorem styleStep_localsOf (v : JSVal) (pr : List (String × JSVal)) (h : textOk v = true) :
    styleStep v (localsOf pr) =
      .ok (localsOf (pr ++ if nonBlank v then [(" style = ?", v)] else [])) := by
  unfold styleStep
  rw [trimmedNonEmpty_of_textOk h]
  cases nonBlank v <;> simp [except_bind_ok, localsOf_snoc, pure, Except.pure]

/-- The `stars` step leaves the locals alone when `parseInt` gives NaN. -/
theorem starsStep_of_nan (v : JSVal) (l : Locals) (h : (parseInt v 10).isNaN = true) :
    starsStep v l = l := by
  unfold starsStep
  simp [h]

/-- The `stars` step adds its clause and binds the parsed number otherwise. -/
theorem starsStep_of_parsed (v : JSVal) (l : Locals) (h : (parseInt v 10).isNaN = false) :
    starsStep v l =
      { l with
        selectSql :=
          l.selectSql ++ ((if l.whereAdded then " AND" else " WHERE") ++ " stars = ?"),
        queryParameters := l.queryParameters ++ [.num (parseInt v 10)] } := by
  obtain ⟨hu, he⟩ := parseInt_ne_of_not_nan h
  unfold starsStep
  simp [hu, he, h]

theorem starsStep_localsOf (v : JSVal) (pr : List (String × JSVal)) :
    (starsStep v (localsOf pr)).selectSql =
        (localsOf (pr ++ if (parseInt v 10).isNaN then []
          else [(" stars = ?", JSVal.num (parseInt v 10))])).selectSql ∧
      (starsStep v (localsOf pr)).queryParameters =
        (localsOf (pr ++ if (parseInt v 10).isNaN then []
          else [(" stars = ?", JSVal.num (parseInt v 10))])).queryParameters := by
  cases b : (parseInt v 10).isNaN
  · rw [starsStep_of_parsed v _ b]
    simp [localsOf_snoc]
  · rw [starsStep_of_nan v _ b]
    simp

theorem orderStep_eq (v : JSVal) (l : Locals) :
    orderStep v l = { l with selectSql := l.selectSql ++ (" ORDER BY " ++ sortColumn v) } := by
  unfold orderStep sortColumn
  split
  · rfl
  · show ({ l with selectSql := l.selectSql ++ " ORDER BY anime_title" } : Locals) =
      { l with selectSql := l.selectSql ++ (" ORDER BY " ++ "anime_title") }
    rfl

theorem limitStep_eq (v : JSVal) (l : Locals) :
    limitStep v l =
      { l with selectSql := l.selectSql ++ (" LIMIT " ++ numToString (limitValue v)) } := rfl

/-- The statement and the parameter list of `getAll` for a filter object whose text filters
are strings or falsy values. -/
theorem getAllStatement_eq (p : Filter) (h : p.textOk = true) :
    getAllStatement p = .ok
      (selectBase ++ whereClause ((predicates p).map Prod.fst) ++
        (" ORDER BY " ++ sortColumn p.sortBy) ++
          (" LIMIT " ++ numToString (limitValue p.limit)),
       (predicates p).map Prod.snd) := by
  simp only [Filter.textOk, Bool.and_eq_true] at h
  obtain ⟨⟨⟨⟨h1, h2⟩, h3⟩, h4⟩, h5⟩ := h
  unfold getAllStatement
  simp only [titleStep_init _ h1, dateStep_localsOf _ _ h2, publisherStep_localsOf _ _ h3,
    ratingStep_localsOf _ _ h4, styleStep_localsOf _ _ h5, except_bind_ok]
  obtain ⟨e1, e2⟩ := starsStep_localsOf p.stars
    ((((if nonBlank p.title then
        [(" anime_title LIKE ?", JSVal.str ("%" ++ jsToString p.title ++ "%"))] else []) ++
      (if nonBlank p.date then
        [(" date LIKE ?", JSVal.str ("%" ++ jsToString p.date ++ "%"))] else [])) ++
      (if nonBlank p.publisher_name then
        [(" publisher.name LIKE ?", JSVal.str ("%" ++ jsToString p.publisher_name ++ "%"))]
       else [])) ++
      (if nonBlank p.rating then [(" rating = ?", p.rating)] else []) ++
      (if nonBlank p.style then [(" style = ?", p.style)] else []))
  simp only [pure, Except.pure, limitStep_eq, orderStep_eq, e1, e2]
  rfl

/-- A truthy text filter that is not a string makes its step throw. -/
theorem trimmedNonEmpty_of_not_textOk {v : JSVal} (h : textOk v = false) :
    trimmedNonEmpty v = .error (.typeError "trim is not a function") := by
  rw [trimmedNonEmpty_eq, h]; rfl

theorem except_bind_error {α β : Type} (e : JSError) (f : α → Except JSError β) :
    ((Except.error e : Except JSError α) >>= f) = .error e := rfl

/-- A filter object with a truthy text filter that is not a string makes `getAll` throw a
TypeError before any statement is built. -/
theorem getAllStatement_throws (p : Filter) (h : p.textOk = false) :
    getAllStatement p = .error (.typeError "trim is not a function") := by
  unfold getAllStatement
  cases h1 : textOk p.title
  · simp only [titleStep, trimmedNonEmpty_of_not_textOk h1, except_bind_error]
  · cases h2 : textOk p.date
    · simp only [titleStep_init _ h1, except_bind_ok, dateStep,
        trimmedNonEmpty_of_not_textOk h2, except_bind_error]
    · cases h3 : textOk p.publisher_name
      · simp only [titleStep_init _ h1, dateStep_localsOf _ _ h2, except_bind_ok,
          publisherStep, trimmedNonEmpty_of_not_textOk h3, except_bind_error]
      · cases h4 : textOk p.rating
        · simp only [titleStep_init _ h1, dateStep_localsOf _ _ h2,
            publisherStep_localsOf _ _ h3, except_bind_ok, ratingStep,
            trimmedNonEmpty_of_not_textOk h4, except_bind_error]
        · cases h5 : textOk p.style
          · simp only [titleStep_init _ h1, dateStep_localsOf _ _ h2,
              publisherStep_localsOf _ _ h3, ratingStep_localsOf _ _ h4, except_bind_ok,
              styleStep, trimmedNonEmpty_of_not_textOk h5, except_bind_error]
          · simp [Filter.textOk, h1, h2, h3, h4, h5] at h

/-- The statement depends on `sortBy` only through the column `sortColumn` picks. -/
theorem getAllStatement_sortBy (p : Filter) (v : JSVal)
    (h : sortColumn v = sortColumn p.sortBy) :
    getAllStatement { p with sortBy := v } = getAllStatement p := by
  simp only [getAllStatement, orderStep_eq, h]

/-- The statement depends on `limit` only through the number `limitValue` picks. -/
theorem getAllStatement_limit (p : Filter) (v : JSVal)
    (h : limitValue v = limitValue p.limit) :
    getAllStatement { p with limit := v } = getAllStatement p := by
  simp only [getAllStatement, limitStep_eq, h]

/-- A `stars` value that `parseInt` turns into NaN leaves the statement as it is without
the key. -/
theorem getAllStatement_stars_nan (p : Filter) (h : (parseInt p.stars 10).isNaN = true) :
    getAllStatement p = getAllStatement { p with stars := .undefined } := by
  simp only [getAllStatement, starsStep_of_nan _ _ h,
    starsStep_of_nan .undefined _ (by decide)]

/-! ## The gateway keeps one connection -/

theorem runQueries_connected (mysql : Driver) (calls : List (String × List JSVal))
    (g : Gateway) (c : Nat) (h : g.connection = some c) :
    runQueries mysql calls g =
      { g with executed := g.executed ++
          calls.map (fun q => { conn := c, sql := q.1, params := q.2 }) } := by
  induction calls generalizing g with
  | nil => simp [runQueries]
  | cons q rest ih =>
    obtain ⟨sql, params⟩ := q
    have hq : (query mysql sql params g).2 =
        { g with executed := g.executed ++ [{ conn := c, sql := sql, params := params }] } := by
      simp [query, h, executeOn]
    rw [runQueries, hq, ih _ (by simpa using h)]
    simp

theorem query_connected (mysql : Driver) (sql : String) (params : List JSVal) (g : Gateway)
    (c : Nat) (h : g.connection = some c) :
    query mysql sql params g =
      (mysql.execute g.executed { conn := c, sql := sql, params := params },
       { g with executed := g.executed ++ [{ conn := c, sql := sql, params := params }] }) := by
  simp [query, h, executeOn]

theorem query_first (mysql : Driver) (sql : String) (params : List JSVal) (g : Gateway)
    (h : g.connection = none) (hc : mysql.createConnection g.created = none) :
    query mysql sql params g =
      (mysql.execute g.executed { conn := g.created, sql := sql, params := params },
       { connection := some g.created, created := g.created + 1,
         executed := g.executed ++ [{ conn := g.created, sql := sql, params := params }] }) := by
  simp [query, h, hc, executeOn]

theorem runQueries_init_cons (mysql : Driver) (h : mysql.createConnection 0 = none)
    (q : String × List JSVal) (rest : List (String × List JSVal)) :
    runQueries mysql (q :: rest) Gateway.init =
      { connection := some 0, created := 1,
        executed := (q :: rest).map (fun q => { conn := 0, sql := q.1, params := q.2 }) } := by
  obtain ⟨sql, params⟩ := q
  have h0 : mysql.createConnection Gateway.init.created = none := h
  rw [runQueries, query_first mysql sql params Gateway.init rfl h0,
    runQueries_connected mysql rest _ 0 rfl]
  simp [Gateway.init]

/-- C8: when the first connection attempt succeeds, any sequence of `query` calls run one
after the other from the initial state (stored connection `null`) makes exactly one
`createConnection` call, during the first `query`: after each call, the first included, the
count of attempts is 1 and the stored connection is that same connection (number 0), and
every statement, in call order, was executed on it. -/
theorem query_single_connection (mysql : Driver) (h : mysql.createConnection 0 = none)
    (calls : List (String × List JSVal)) :
    Gateway.init.connection = none ∧ Gateway.init.created = 0 ∧
      (runQueries mysql calls Gateway.init).executed =
        calls.map (fun q => { conn := 0, sql := q.1, params := q.2 }) ∧
      ∀ k, 0 < k → k ≤ calls.length →
        (runQueries mysql (calls.take k) Gateway.init).connection = some 0 ∧
        (runQueries mysql (calls.take k) Gateway.init).created = 1 := by
  refine ⟨rfl, rfl, ?_, ?_⟩
  · cases calls with
    | nil => rfl
    | cons q rest => rw [runQueries_init_cons mysql h]
  · intro k hk hle
    cases hc : calls.take k with
    | nil =>
      have hlen : (calls.take k).length = k := by
        rw [List.length_take]; omega
      rw [hc] at hlen
      simp at hlen
      omega
    | cons q rest =>
      rw [runQueries_init_cons mysql h]
      exact ⟨rfl, rfl⟩

theorem query_single_connection_witness :
    sampleDriver.createConnection 0 = none ∧
      (runQueries sampleDriver [("SELECT 1", []), (deleteSql, [.str "7"])]
          Gateway.init).executed =
        [{ conn := 0, sql := "SELECT 1", params := [] },
         { conn := 0, sql := deleteSql, params := [.str "7"] }] ∧
      (runQueries sampleDriver [("SELECT 1", [])] Gateway.init).connection = some 0 :=
  ⟨rfl,
   (query_single_connection sampleDriver rfl
    [("SELECT 1", []), (deleteSql, [.str "7"])]).2.2.1,
   ((query_single_connection sampleDriver rfl
    [("SELECT 1", []), (deleteSql, [.str "7"])]).2.2.2 1 (by decide) (by decide)).1⟩

/-! ## `deleteById` -/

/-- C3, as the claim states it, fails at the id `0`: the Number zero is none of undefined,
null and the empty string, and `isNaN(0)` is false, yet `deleteById(0)` throws the
invalid-id error and leaves the gateway untouched. -/
theorem deleteById_zero_rejected :
    JSVal.num (.int 0) ≠ .undefined ∧ JSVal.num (.int 0) ≠ .null ∧
      JSVal.num (.int 0) ≠ .str "" ∧ isNaN (.num (.int 0)) = false ∧
      deleteById sampleDriver (.num (.int 0)) Gateway.init =
        (.error (.error "Invalid ID"), Gateway.init) := by
  refine ⟨by decide, by decide, by decide, by decide, ?_⟩
  rfl

/-- C3, amended: when `id` is falsy or `isNaN(id)` holds, `deleteById` throws the invalid-id
error and the gateway is unchanged (no connection attempt, no statement); when `id` is
truthy and `isNaN(id)` is false, it is one `query` call with the DELETE text and `[id]`:
on a connection `c` that is stored already, or that the call creates, it executes exactly
one statement, the DELETE with `[id]` bound, and returns what the driver returns for it. -/
theorem deleteById_guard (mysql : Driver) (id : JSVal) (g : Gateway) :
    (toBoolean id = false ∨ isNaN id = true →
      deleteById mysql id g = (.error (.error "Invalid ID"), g)) ∧
    (toBoolean id = true ∧ isNaN id = false →
      deleteById mysql id g = query mysql deleteSql [id] g ∧
      ∀ c, (g.connection = some c ∨
          (g.connection = none ∧ mysql.createConnection g.created = none ∧ c = g.created)) →
        (deleteById mysql id g).1 =
            mysql.execute g.executed { conn := c, sql := deleteSql, params := [id] } ∧
          (deleteById mysql id g).2.executed =
            g.executed ++ [{ conn := c, sql := deleteSql, params := [id] }] ∧
          (deleteById mysql id g).2.connection = some c) := by
  constructor
  · rintro (h | h) <;> simp [deleteById, h]
  · rintro ⟨h1, h2⟩
    have e : deleteById mysql id g = query mysql deleteSql [id] g := by
      simp [deleteById, h1, h2]
    refine ⟨e, fun c hc => ?_⟩
    rcases hc with hc | ⟨hn, hcr, rfl⟩
    · rw [e, query_connected mysql deleteSql [id] g c hc]
      exact ⟨rfl, rfl, hc⟩
    · rw [e, query_first mysql deleteSql [id] g hn hcr]
      exact ⟨rfl, rfl, rfl⟩

theorem deleteById_guard_witness :
    deleteById sampleDriver (.str "abc") Gateway.init =
        (.error (.error "Invalid ID"), Gateway.init) ∧
      deleteById sampleDriver .null Gateway.init =
        (.error (.error "Invalid ID"), Gateway.init) ∧
      (deleteById sampleDriver (.str "7") Gateway.init).2.executed =
        [{ conn := 0, sql := deleteSql, params := [.str "7"] }] :=
  ⟨(deleteById_guard sampleDriver (.str "abc") Gateway.init).1 (Or.inr (by decide)),
   (deleteById_guard sampleDriver .null Gateway.init).1 (Or.inl (by decide)),
   (((deleteById_guard sampleDriver (.str "7") Gateway.init).2 ⟨by decide, by decide⟩).2 0
      (Or.inr ⟨rfl, rfl, rfl⟩)).2.1⟩

/-! ## `edit` and `insert` -/

set_option maxRecDepth 8192 in
theorem updateSql_placeholders : updateSql.toList.count '?' = 9 := by decide

set_option maxRecDepth 8192 in
theorem insertSql_placeholders : insertSql.toList.count '?' = 9 := by decide

/-- C5: `edit` is one `query` call with the UPDATE text, which has nine placeholders, and
nine parameters: the eight fields in the order anime_title, date, rating, title_image,
style, show_summary, num_of_seasons, stars, each as given when present and null when absent,
then the id; `edit(id, {anime_title: "X"})` binds `["X", null, ..., null, id]`. -/
theorem edit_binds_nine (mysql : Driver) (id : JSVal) (f : Fields) (g : Gateway) :
    edit mysql id f g =
        query mysql updateSql
          [givenOrNull f.anime_title, givenOrNull f.date, givenOrNull f.rating,
           givenOrNull f.title_image, givenOrNull f.style, givenOrNull f.show_summary,
           givenOrNull f.num_of_seasons, givenOrNull f.stars, id] g ∧
      (editParameters id f).length = 9 ∧
      updateSql.toList.count '?' = 9 ∧
      editParameters id { anime_title := .str "X" } =
        [.str "X", .null, .null, .null, .null, .null, .null, .null, id] := by
  have hn : ∀ v : JSVal, nullish v .null = givenOrNull v := by
    intro v
    cases v <;> simp [nullish, givenOrNull]
  refine ⟨?_, rfl, updateSql_placeholders, rfl⟩
  simp [edit, editParameters, hn]

/-- C6 at a field set with a single key: `insert` binds nine parameters in column order,
each the field as it reads from the input, so the eight missing fields are bound as
`undefined`, not as null. -/
theorem insert_missing_bound_undefined (mysql : Driver) (g : Gateway) :
    insert mysql { anime_title := .str "Frieren" } g =
        query mysql insertSql
          [.str "Frieren", .undefined, .undefined, .undefined, .undefined, .undefined,
           .undefined, .undefined, .undefined] g ∧
      insertParameters { anime_title := .str "Frieren" } ≠
        [.str "Frieren", .null, .null, .null, .null, .null, .null, .null, .null] := by
  refine ⟨rfl, by decide⟩

/-- What holds of `insert` for every field set: nine parameters, in column order, each the
field exactly as it reads from the input. -/
theorem insert_binds_as_given (mysql : Driver) (f : Fields) (g : Gateway) :
    insert mysql f g =
        query mysql insertSql
          [f.anime_title, f.date, f.rating, f.title_image, f.style, f.show_summary,
           f.num_of_seasons, f.stars, f.publisher_id] g ∧
      insertSql.toList.count '?' = 9 :=
  ⟨rfl, insertSql_placeholders⟩

/-! ## The update handler -/

/-- C9, as the claim states it, fails at `sampleRequest`, which carries no file and no
`old_image`: the handler answers 200 and its only statement binds null for `title_image`
(the fourth parameter), which is no file name, whatever name the entry had stored. -/
theorem put_without_file_binds_null :
    sampleRequest.title_image = none ∧ sampleRequest.errors = [] ∧
      (putHandler sampleDriver sampleRequest Gateway.init).1.status = 200 ∧
      (putHandler sampleDriver sampleRequest Gateway.init).2.executed.map
          (fun call => (call.sql, call.params.get? 3)) = [(updateSql, some JSVal.null)] ∧
      ∀ stored : String, JSVal.null ≠ JSVal.str stored := by
  refine ⟨rfl, rfl, by decide, rfl, ?_⟩
  intro stored h
  cases h

/-- C9, amended: on a request that passed validation the handler does what
`edit(id, updatedData)` does to the gateway; the value bound for `title_image` is the
request field `old_image`, or null when that field is undefined or null, when no file came
with the request, and the stored name of the first uploaded file when one did. -/
theorem put_title_image (mysql : Driver) (req : PutRequest) (g : Gateway)
    (hv : req.errors = []) :
    (putHandler mysql req g).2 =
        (query mysql updateSql (editParameters req.id (updatedData req)) g).2 ∧
      (req.title_image = none ∨ req.title_image = some [] →
        (editParameters req.id (updatedData req)).get? 3 =
          some (nullish req.body.old_image .null)) ∧
      (∀ file rest, req.title_image = some (file :: rest) →
        (editParameters req.id (updatedData req)).get? 3 = some (.str file.filename)) := by
  refine ⟨?_, ?_, ?_⟩
  · simp only [putHandler, hv, edit]
    cases query mysql updateSql (editParameters req.id (updatedData req)) g with
    | mk r g1 => cases r <;> simp
  · rintro (h | h) <;>
      simp [editParameters, updatedData, uploadedFilename, h, nullish]
  · intro file rest h
    simp [editParameters, updatedData, uploadedFilename, h, nullish]

theorem put_title_image_witness :
    sampleUpload.errors = [] ∧
      (editParameters sampleUpload.id (updatedData sampleUpload)).get? 3 =
        some (.str "cover-1700000000000.png") ∧
      (editParameters sampleRequest.id (updatedData sampleRequest)).get? 3 =
        some .null :=
  ⟨rfl,
   (put_title_image sampleDriver sampleUpload Gateway.init rfl).2.2 _ _ rfl,
   (put_title_image sampleDriver sampleRequest Gateway.init rfl).2.1 (Or.inl rfl)⟩

/-! ## `parseInt` reads back the decimal form of an integer -/

theorem digitValue_digitChar (d : Nat) (h : d < 10) : digitValue (Nat.digitChar d) = some d := by
  interval_cases d <;> decide

theorem isDecimalChar_digitChar (d : Nat) (h : d < 10) :
    isDecimalChar (Nat.digitChar d) = true := by
  interval_cases d <;> decide

theorem decimalChar_facts {c : Char} (h : isDecimalChar c = true) :
    isRadixDigit 10 c = true ∧ isStrWhiteSpaceChar c = false ∧ c ≠ '-' ∧ c ≠ '+' ∧ c ≠ '?' := by
  have hm : c ∈ ['0', '1', '2', '3', '4', '5', '6', '7', '8', '9'] :=
    List.mem_of_elem_eq_true h
  simp only [List.mem_cons, List.mem_singleton, List.not_mem_nil, or_false] at hm
  rcases hm with e | e | e | e | e | e | e | e | e | e <;> subst e <;> decide

theorem toDigitsCore_chars (fuel : Nat) :
    ∀ (n : Nat) (ds : List Char), (∀ c ∈ ds, isDecimalChar c = true) →
      ∀ c ∈ Nat.toDigitsCore 10 fuel n ds, isDecimalChar c = true := by
  induction fuel with
  | zero => intro n ds h; simpa [Nat.toDigitsCore] using h
  | succ k ih =>
    intro n ds h
    have hd : ∀ c ∈ Nat.digitChar (n % 10) :: ds, isDecimalChar c = true := by
      intro c hc
      rcases List.mem_cons.mp hc with e | e
      · rw [e]; exact isDecimalChar_digitChar _ (Nat.mod_lt _ (by decide))
      · exact h c e
    unfold Nat.toDigitsCore
    simp only
    split
    · exact hd
    · exact ih _ _ hd

theorem toDigitsCore_ne_nil (fuel : Nat) :
    ∀ (n : Nat) (ds : List Char), (fuel ≠ 0 ∨ ds ≠ []) → Nat.toDigitsCore 10 fuel n ds ≠ [] := by
  induction fuel with
  | zero => intro n ds h; simpa [Nat.toDigitsCore] using h
  | succ k ih =>
    intro n ds _
    unfold Nat.toDigitsCore
    simp only
    split
    · simp
    · exact ih _ _ (Or.inr (by simp))

theorem digitsValue_cons (c : Char) (cs : List Char) :
    digitsValue 10 (c :: cs) =
      (digitValue c).getD 0 * 10 ^ cs.length + digitsValue 10 cs := by
  have key : ∀ (l : List Char) (a : Nat),
      l.foldl (fun acc c => acc * 10 + (digitValue c).getD 0) a =
        a * 10 ^ l.length + l.foldl (fun acc c => acc * 10 + (digitValue c).getD 0) 0 := by
    intro l
    induction l with
    | nil => intro a; simp
    | cons x xs ih =>
      intro a
      simp only [List.foldl_cons, List.length_cons]
      rw [ih (a * 10 + (digitValue x).getD 0), ih (0 * 10 + (digitValue x).getD 0)]
      ring
  simp only [digitsValue, List.foldl_cons]
  rw [key cs]
  simp

theorem toDigitsCore_value (fuel : Nat) :
    ∀ (n : Nat) (ds : List Char), n < fuel →
      digitsValue 10 (Nat.toDigitsCore 10 fuel n ds) =
        n * 10 ^ ds.length + digitsValue 10 ds := by
  induction fuel with
  | zero => intro n ds h; omega
  | succ k ih =>
    intro n ds h
    unfold Nat.toDigitsCore
    simp only
    have hv : (digitValue (Nat.digitChar (n % 10))).getD 0 = n % 10 := by
      rw [digitValue_digitChar _ (Nat.mod_lt _ (by decide))]; rfl
    split
    · rename_i h0
      rw [digitsValue_cons, hv]
      have : n % 10 = n := by omega
      rw [this]
    · rename_i h0
      have hlt : n / 10 < k := by omega
      rw [ih _ _ hlt, digitsValue_cons, hv, List.length_cons, pow_succ]
      have hn : n = n / 10 * 10 + n % 10 := by omega
      calc n / 10 * (10 ^ ds.length * 10) + (n % 10 * 10 ^ ds.length + digitsValue 10 ds)
          = (n / 10 * 10 + n % 10) * 10 ^ ds.length + digitsValue 10 ds := by ring
        _ = n * 10 ^ ds.length + digitsValue 10 ds := by rw [← hn]

theorem parseInt_decimal (l : List Char) (hne : l ≠ [])
    (hd : ∀ c ∈ l, isDecimalChar c = true) :
    parseInt (.str (String.mk l)) 10 = .int (digitsValue 10 l) ∧
      parseInt (.str (String.mk ('-' :: l))) 10 = .int (-(digitsValue 10 l : Int)) := by
  obtain ⟨c, cs, rfl⟩ := List.exists_cons_of_ne_nil hne
  have hc := decimalChar_facts (hd c (by simp))
  have htake : List.takeWhile (isRadixDigit 10) (c :: cs) = c :: cs :=
    List.takeWhile_eq_self_iff.mpr (fun x hx => (decimalChar_facts (hd x hx)).1)
  constructor
  · simp [parseInt, jsToString, String.toList, hc.2.1, hc.2.2.1, hc.2.2.2.1, htake]
  · have hm : isStrWhiteSpaceChar '-' = false := by decide
    simp [parseInt, jsToString, String.toList, hm, htake]

/-- The function `parseInt(n, 10)` gives back an integral Number `n` of magnitude below
2^53, the range in which `Number::toString` prints all the digits. -/
theorem parseInt_int (i : Int) (_hi : i.natAbs < 2 ^ 53) :
    parseInt (.num (.int i)) 10 = .int i := by
  have hchars : ∀ m : Nat, ∀ c ∈ Nat.toDigits 10 m, isDecimalChar c = true :=
    fun m => toDigitsCore_chars (m + 1) m [] (by simp)
  have hne : ∀ m : Nat, Nat.toDigits 10 m ≠ [] :=
    fun m => toDigitsCore_ne_nil (m + 1) m [] (Or.inl (by simp))
  have hval : ∀ m : Nat, digitsValue 10 (Nat.toDigits 10 m) = m := by
    intro m
    have := toDigitsCore_value (m + 1) m [] (by omega)
    simpa [digitsValue, Nat.toDigits] using this
  cases i with
  | ofNat m =>
    have h := (parseInt_decimal _ (hne m) (hchars m)).1
    rw [hval m] at h
    exact h
  | negSucc m =>
    have h := (parseInt_decimal _ (hne (m + 1)) (hchars (m + 1))).2
    rw [hval (m + 1)] at h
    exact h

/-! ## Placeholders in the statement of `getAll` -/

theorem placeholders_append (s t : String) :
    placeholders (s ++ t) = placeholders s + placeholders t := by
  simp [placeholders, String.toList]

set_option maxRecDepth 16384 in
theorem placeholders_selectBase : placeholders selectBase = 0 := by decide

theorem placeholders_nat (n : Nat) : placeholders (toString n) = 0 := by
  have h : ∀ c ∈ Nat.toDigits 10 n, isDecimalChar c = true :=
    toDigitsCore_chars (n + 1) n [] (by simp)
  have h2 : '?' ∉ Nat.toDigits 10 n :=
    fun hm => (decimalChar_facts (h _ hm)).2.2.2.2 rfl
  simp only [placeholders, String.toList, List.count_eq_zero]
  exact h2

theorem placeholders_numToString (n : JSNum) : placeholders (numToString n) = 0 := by
  cases n with
  | nan => decide
  | inf b => cases b <;> decide
  | int i =>
    cases i with
    | ofNat m => exact placeholders_nat m
    | negSucc m =>
      show placeholders ("-" ++ toString (Nat.succ m)) = 0
      rw [placeholders_append, placeholders_nat]
      decide

theorem mem_allowedSorts {v : JSVal} (h : allowedSorts.contains v = true) :
    v = .str "anime_title" ∨ v = .str "date" ∨ v = .str "rating" ∨ v = .str "style" ∨
      v = .str "stars" ∨ v = .str "publisher_name" ∨ v = .str "num_of_seasons" := by
  have hm : v ∈ allowedSorts := List.mem_of_elem_eq_true h
  simpa [allowedSorts] using hm

theorem placeholders_sortColumn (v : JSVal) : placeholders (sortColumn v) = 0 := by
  unfold sortColumn
  split
  · rename_i h
    simp only [Bool.and_eq_true] at h
    rcases mem_allowedSorts h.2 with e | e | e | e | e | e | e <;> subst e <;> decide
  · decide

theorem placeholders_andClauses (cs : List String) (h : ∀ c ∈ cs, placeholders c = 1) :
    placeholders (andClauses cs) = cs.length := by
  induction cs with
  | nil => decide
  | cons d ds ih =>
    have hd : placeholders d = 1 := h d (by simp)
    have hr : placeholders (andClauses ds) = ds.length :=
      ih (fun c hc => h c (List.mem_cons_of_mem _ hc))
    have ha : placeholders " AND" = 0 := by decide
    simp only [andClauses, placeholders_append, hd, hr, ha, List.length_cons]
    omega

theorem placeholders_whereClause (cs : List String) (h : ∀ c ∈ cs, placeholders c = 1) :
    placeholders (whereClause cs) = cs.length := by
  cases cs with
  | nil => decide
  | cons d ds =>
    have hd : placeholders d = 1 := h d (by simp)
    have hr : placeholders (andClauses ds) = ds.length :=
      placeholders_andClauses ds (fun c hc => h c (List.mem_cons_of_mem _ hc))
    have ha : placeholders " WHERE" = 0 := by decide
    simp only [whereClause, placeholders_append, hd, hr, ha, List.length_cons]
    omega

theorem predicates_clause_placeholder (p : Filter) :
    ∀ c ∈ (predicates p).map Prod.fst, placeholders c = 1 := by
  intro c hc
  simp only [predicates, List.map_append, List.mem_append] at hc
  rcases hc with ((((hc | hc) | hc) | hc) | hc) | hc <;>
    (split at hc <;> simp at hc; subst hc; decide)

theorem predicates_fst_congr (p q : Filter) (h : appliedFilters q = appliedFilters p) :
    (predicates q).map Prod.fst = (predicates p).map Prod.fst := by
  simp only [appliedFilters, List.cons.injEq, and_true] at h
  obtain ⟨h1, h2, h3, h4, h5, h6⟩ := h
  have h6 : (parseInt q.stars 10).isNaN = (parseInt p.stars 10).isNaN := by
    cases hq : (parseInt q.stars 10).isNaN <;> cases hp : (parseInt p.stars 10).isNaN <;>
      simp [hq, hp] at h6 <;> rfl
  simp only [predicates, h1, h2, h3, h4, h5, h6, List.map_append]
  cases nonBlank p.title <;> cases nonBlank p.date <;> cases nonBlank p.publisher_name <;>
    cases nonBlank p.rating <;> cases nonBlank p.style <;>
    cases (parseInt p.stars 10).isNaN <;> rfl

/-! ## The `ORDER BY` column -/

theorem sortColumn_of_not_allowed {v : JSVal} (h : v ∉ allowedSorts) :
    sortColumn v = "anime_title" := by
  have hc : allowedSorts.contains v = false := by
    cases hb : allowedSorts.contains v
    · rfl
    · exact absurd (List.mem_of_elem_eq_true hb) h
  unfold sortColumn
  rw [hc, Bool.and_false]
  rfl

theorem sortColumn_of_allowed {v : JSVal} (h : v ∈ allowedSorts) :
    JSVal.str (sortColumn v) = v := by
  simp only [allowedSorts, List.mem_cons, List.mem_singleton, List.not_mem_nil,
    or_false] at h
  rcases h with e | e | e | e | e | e | e <;> subst e <;> decide

/-- C1: the column `getAll` puts after `ORDER BY`, in the step and in the finished
statement, is `sortColumn sortBy`; it is always a member of the allow-list, it is `sortBy` itself when `sortBy` is in the allow-list, and it
is `anime_title` for every other value, in which case `getAll` builds what it builds with
`sortBy` omitted (the same statement and parameters, or the same exception). -/
theorem getAll_sort_allow_list (p : Filter) :
    JSVal.str (sortColumn p.sortBy) ∈ allowedSorts ∧
      (∀ l : Locals, (orderStep p.sortBy l).selectSql =
        l.selectSql ++ (" ORDER BY " ++ sortColumn p.sortBy)) ∧
      (p.textOk = true → getAllStatement p = .ok
        (selectBase ++ whereClause ((predicates p).map Prod.fst) ++
          (" ORDER BY " ++ sortColumn p.sortBy) ++
            (" LIMIT " ++ numToString (limitValue p.limit)),
         (predicates p).map Prod.snd)) ∧
      (p.sortBy ∈ allowedSorts → JSVal.str (sortColumn p.sortBy) = p.sortBy) ∧
      (p.sortBy ∉ allowedSorts →
        sortColumn p.sortBy = "anime_title" ∧
        getAllStatement p = getAllStatement { p with sortBy := .undefined }) := by
  refine ⟨?_, ?_, getAllStatement_eq p, sortColumn_of_allowed, ?_⟩
  · by_cases h : p.sortBy ∈ allowedSorts
    · rw [sortColumn_of_allowed h]; exact h
    · rw [sortColumn_of_not_allowed h]; decide
  · intro l
    rw [orderStep_eq]
  · intro h
    refine ⟨sortColumn_of_not_allowed h, ?_⟩
    have hu : sortColumn .undefined = sortColumn p.sortBy := by
      rw [sortColumn_of_not_allowed h]; rfl
    exact (getAllStatement_sortBy p .undefined hu).symm

theorem getAll_sort_allow_list_witness :
    getAllStatement { title := .str "frier", sortBy := .str "id; DROP TABLE AnimeForm" } =
        getAllStatement { title := .str "frier" } ∧
      JSVal.str (sortColumn (.str "stars")) = .str "stars" :=
  ⟨((getAll_sort_allow_list
      { title := .str "frier", sortBy := .str "id; DROP TABLE AnimeForm" }).2.2.2.2
      (by decide)).2,
   (getAll_sort_allow_list { sortBy := .str "stars" }).2.2.2.1 (by decide)⟩

/-! ## The `LIMIT` value -/

/-- C2, as the claim states it, fails at `limit = 0`, which is what the list handler
passes for `?limit=0`: the Number zero is present, `isNaN` accepts it and `parseInt` reads
it as the integer 0, yet the statement ends in `LIMIT 10`. -/
theorem getAll_limit_zero_gives_ten :
    listLimit (.str "0") = .num (.int 0) ∧
      JSVal.num (.int 0) ≠ .undefined ∧ isNaN (.num (.int 0)) = false ∧
      parseInt (.num (.int 0)) 10 = .int 0 ∧
      limitValue (.num (.int 0)) = .int 10 ∧
      getAllStatement { limit := .num (.int 0) } =
        .ok (selectBase ++ " ORDER BY anime_title" ++ " LIMIT 10", []) := by
  refine ⟨by decide, by decide, by decide, by decide, by decide, ?_⟩
  rfl

/-- C2, amended: the text after `LIMIT` is the decimal form of `limitValue limit`, which is
10 when `limit` is falsy or `isNaN(limit)` holds, and is the integer `parseInt(limit, 10)`
when `limit` is truthy, `isNaN(limit)` is false and `parseInt` reads an integer; an
integral Number other than 0 of magnitude below 2^53 is used as it is. -/
theorem getAll_limit_value (p : Filter) :
    (∀ l : Locals, (limitStep p.limit l).selectSql =
        l.selectSql ++ (" LIMIT " ++ numToString (limitValue p.limit))) ∧
      (p.textOk = true → getAllStatement p = .ok
        (selectBase ++ whereClause ((predicates p).map Prod.fst) ++
          (" ORDER BY " ++ sortColumn p.sortBy) ++
            (" LIMIT " ++ numToString (limitValue p.limit)),
         (predicates p).map Prod.snd)) ∧
      (toBoolean p.limit = false ∨ isNaN p.limit = true → limitValue p.limit = .int 10) ∧
      (∀ n : Int, toBoolean p.limit = true → isNaN p.limit = false →
        parseInt p.limit 10 = .int n → limitValue p.limit = .int n) ∧
      (∀ i : Int, i ≠ 0 → i.natAbs < 2 ^ 53 → p.limit = .num (.int i) →
        limitValue p.limit = .int i) := by
  refine ⟨fun l => rfl, getAllStatement_eq p, ?_, ?_, ?_⟩
  · rintro (h | h) <;> simp [limitValue, h]
  · intro n h1 h2 h3
    simp [limitValue, h1, h2, h3]
  · intro i hi hb hl
    rw [hl]
    have h1 : toBoolean (.num (.int i)) = true := by simp [toBoolean, hi]
    have h2 : isNaN (.num (.int i)) = false := rfl
    simp [limitValue, h1, h2, parseInt_int i hb]

theorem getAll_limit_value_witness :
    limitValue .undefined = .int 10 ∧ limitValue (.str "abc") = .int 10 ∧
      limitValue (.str "25") = .int 25 ∧ limitValue (.num (.int 3)) = .int 3 :=
  ⟨(getAll_limit_value { }).2.2.1 (Or.inl (by decide)),
   (getAll_limit_value { limit := .str "abc" }).2.2.1 (Or.inr (by decide)),
   (getAll_limit_value { limit := .str "25" }).2.2.2.1 25 (by decide) (by decide)
     (by decide),
   (getAll_limit_value { limit := .num (.int 3) }).2.2.2.2 3 (by decide) (by decide) rfl⟩

/-- The slip beside C2: a `limit` that `isNaN` accepts and `parseInt` rejects, such as a
blank string, `true` or `Infinity`, puts `NaN` after `LIMIT`. -/
theorem getAll_limit_nan :
    getAllStatement { limit := .str " " } =
        .ok (selectBase ++ " ORDER BY anime_title" ++ " LIMIT NaN", []) ∧
      limitValue (.bool true) = .nan ∧ limitValue (.num (.inf false)) = .nan := by
  refine ⟨rfl, by decide, by decide⟩

/-! ## The `WHERE` clause -/

theorem predicates_nil_of_none_applied (p : Filter)
    (h : appliedFilters p = [false, false, false, false, false, false]) :
    predicates p = [] := by
  simp only [appliedFilters, List.cons.injEq, and_true, Bool.not_eq_false'] at h
  obtain ⟨h1, h2, h3, h4, h5, h6⟩ := h
  simp [predicates, h1, h2, h3, h4, h5, h6]

/-- C4: for a filter object whose text filters are strings or falsy values, `getAll` builds
the base text, then the predicates of `predicates` (one for each of title, date,
publisher_name, rating and style whose value is a string that is not blank after trimming,
LIKE with the value between two `%` for the first three, equality with the value itself for
rating and style, then the one for stars) joined by a single `WHERE` and `AND`s, then the
`ORDER BY` and `LIMIT` clauses, and binds the values of these predicates in the same order;
when no filter applies there is no `WHERE` clause and nothing is bound. -/
theorem getAll_where_clause (p : Filter) (h : p.textOk = true) :
    getAllStatement p = .ok
        (selectBase ++ whereClause ((predicates p).map Prod.fst) ++
          (" ORDER BY " ++ sortColumn p.sortBy) ++
            (" LIMIT " ++ numToString (limitValue p.limit)),
         (predicates p).map Prod.snd) ∧
      predicates { p with stars := .undefined } =
        (if nonBlank p.title then
          [(" anime_title LIKE ?", JSVal.str ("%" ++ jsToString p.title ++ "%"))] else []) ++
        (if nonBlank p.date then
          [(" date LIKE ?", JSVal.str ("%" ++ jsToString p.date ++ "%"))] else []) ++
        (if nonBlank p.publisher_name then
          [(" publisher.name LIKE ?", JSVal.str ("%" ++ jsToString p.publisher_name ++ "%"))]
         else []) ++
        (if nonBlank p.rating then [(" rating = ?", p.rating)] else []) ++
        (if nonBlank p.style then [(" style = ?", p.style)] else []) ∧
      (appliedFilters p = [false, false, false, false, false, false] →
        getAllStatement p = .ok
          (selectBase ++ (" ORDER BY " ++ sortColumn p.sortBy) ++
            (" LIMIT " ++ numToString (limitValue p.limit)), [])) := by
  refine ⟨getAllStatement_eq p h, ?_, ?_⟩
  · simp [predicates, parseInt_undefined, JSNum.isNaN]
  · intro hn
    rw [getAllStatement_eq p h, predicates_nil_of_none_applied p hn]
    simp [whereClause]

theorem getAll_where_clause_witness :
    Filter.textOk { title := .str "frier", date := .str "  ", rating := .str "TV-14" } = true ∧
      getAllStatement { title := .str "frier", date := .str "  ", rating := .str "TV-14" } =
        .ok (selectBase ++ " WHERE anime_title LIKE ? AND rating = ?" ++
              " ORDER BY anime_title" ++ " LIMIT 10",
             [.str "%frier%", .str "TV-14"]) :=
  ⟨by decide,
   (getAll_where_clause { title := .str "frier", date := .str "  ", rating := .str "TV-14" }
      (by decide)).1.trans rfl⟩

/-! ## The `stars` filter -/

/-- C7: when `parseInt(stars, 10)` is NaN, `getAll` builds exactly what it builds with
`stars` omitted, and builds a statement whenever the text filters are strings or falsy
values; when `parseInt` reads an integer `n`, the statement is the one without `stars`
with the predicate ` stars = ?` added last in the `WHERE` clause and `n` bound last. -/
theorem getAll_stars_filter (p : Filter) :
    ((parseInt p.stars 10).isNaN = true →
        getAllStatement p = getAllStatement { p with stars := .undefined } ∧
        (p.textOk = true → ∃ r, getAllStatement p = .ok r)) ∧
      (∀ n : Int, parseInt p.stars 10 = .int n → p.textOk = true →
        getAllStatement { p with stars := .undefined } = .ok
          (selectBase ++
            whereClause ((predicates { p with stars := .undefined }).map Prod.fst) ++
            (" ORDER BY " ++ sortColumn p.sortBy) ++
              (" LIMIT " ++ numToString (limitValue p.limit)),
           (predicates { p with stars := .undefined }).map Prod.snd) ∧
        getAllStatement p = .ok
          (selectBase ++
            whereClause
              ((predicates { p with stars := .undefined }).map Prod.fst ++ [" stars = ?"]) ++
            (" ORDER BY " ++ sortColumn p.sortBy) ++
              (" LIMIT " ++ numToString (limitValue p.limit)),
           (predicates { p with stars := .undefined }).map Prod.snd ++ [.num (.int n)])) := by
  constructor
  · intro h
    exact ⟨getAllStatement_stars_nan p h, fun ht => ⟨_, getAllStatement_eq p ht⟩⟩
  · intro n hn ht
    have h0 : Filter.textOk { p with stars := .undefined } = true := ht
    have hp : predicates p =
        predicates { p with stars := .undefined } ++ [(" stars = ?", .num (.int n))] := by
      simp [predicates, hn, parseInt_undefined, JSNum.isNaN]
    refine ⟨getAllStatement_eq _ h0, ?_⟩
    rw [getAllStatement_eq p ht, hp]
    simp

theorem getAll_stars_filter_witness :
    getAllStatement { title := .str "frier", stars := .str "abc" } =
        getAllStatement { title := .str "frier" } ∧
      getAllStatement { title := .str "frier", stars := .str "3" } =
        .ok (selectBase ++ " WHERE anime_title LIKE ? AND stars = ?" ++
              " ORDER BY anime_title" ++ " LIMIT 10",
             [.str "%frier%", .num (.int 3)]) :=
  ⟨((getAll_stars_filter { title := .str "frier", stars := .str "abc" }).1 (by decide)).1,
   ((getAll_stars_filter { title := .str "frier", stars := .str "3" }).2 3 (by decide)
      (by decide)).2.trans rfl⟩

/-! ## Placeholders and bound parameters -/

/-- C10: for a filter object whose text filters are strings or falsy values, `getAll`
builds a statement whose number of `?` placeholders is the length of the bound-parameter
list, and passes both to `connection.query`; the list holds the values of the applied predicates in the order title, date,
publisher_name, rating, style, stars; and the statement text is the same for every such
filter object that applies the same predicates and has the same `sortBy` and `limit`, so
it does not depend on the filter values. -/
theorem getAll_placeholders_match (p : Filter) (h : p.textOk = true) :
    ∃ sql params, getAllStatement p = .ok (sql, params) ∧
      placeholders sql = params.length ∧
      (∀ (mysql : Driver) (g : Gateway), getAll mysql p g = query mysql sql params g) ∧
      params = (predicates p).map Prod.snd ∧
      ∀ q : Filter, q.textOk = true → appliedFilters q = appliedFilters p →
        q.sortBy = p.sortBy → q.limit = p.limit →
        getAllStatement q = .ok (sql, (predicates q).map Prod.snd) := by
  refine ⟨_, _, getAllStatement_eq p h, ?_, ?_, rfl, ?_⟩
  · simp only [placeholders_append, placeholders_selectBase, placeholders_sortColumn,
      placeholders_numToString,
      placeholders_whereClause _ (predicates_clause_placeholder p), List.length_map]
    have h1 : placeholders " ORDER BY " = 0 := by decide
    have h2 : placeholders " LIMIT " = 0 := by decide
    omega
  · intro mysql g
    simp only [getAll, getAllStatement_eq p h]
  · intro q hq ha hs hl
    rw [getAllStatement_eq q hq, predicates_fst_congr p q ha, hs, hl]

theorem getAll_placeholders_match_witness :
    Filter.textOk { title := .str "frier", style := .str "Fantasy", stars := .str "5" } = true ∧
      ∃ sql params,
        getAllStatement { title := .str "frier", style := .str "Fantasy", stars := .str "5" } =
          .ok (sql, params) ∧
        placeholders sql = params.length ∧
        params = [.str "%frier%", .str "Fantasy", .num (.int 5)] := by
  refine ⟨by decide, ?_⟩
  obtain ⟨sql, params, h1, h2, _, h3, _⟩ :=
    getAll_placeholders_match
      { title := .str "frier", style := .str "Fantasy", stars := .str "5" } (by decide)
  exact ⟨sql, params, h1, h2, h3.trans (by decide)⟩

end AnimeDB
